import Mathlib

/-!
# Verification of the lazydatabricks armed-mode guard and safe-call convention

Shallow embedding of `src/lazydatabricks/api/guard.py` (the `ArmedGuard`
dataclass), the mutating operations of `ClusterOps`, `JobOps`, `PipelineOps`
and `WarehouseOps`, the config read-only flag, and the screen-level workers
that wrap the cluster operations.

Python floats sampled from `time.time()` are modelled as rationals; every
call to `time.time()` in a method body becomes an explicit clock argument,
in the order the samples are taken.  Methods that may mutate the guard
(`is_armed` auto-disarms on expiry) return the new state alongside their
result.  The upstream SDK call made by a mutating operation is modelled by
an `Except String` oracle (its success value, or the exception message it
raises); each operation additionally reports whether the SDK call was
actually invoked.
-/

namespace LazyDatabricks

/-- Python `int(x)` applied to a real number: truncation toward zero. -/
def pyInt (q : ℚ) : ℤ := if 0 ≤ q then ⌊q⌋ else ⌈q⌉

/-- The `ArmedGuard` dataclass of `lazydatabricks/api/guard.py`:
`ttl_seconds : int = 30`, `_armed_at : float = 0.0` (0.0 is the disarmed
sentinel). -/
structure ArmedGuard where
  ttl_seconds : ℤ := 30
  armed_at : ℚ := 0
deriving DecidableEq, Repr

/-- `ArmedGuard(ttl_seconds=ttl)` — a freshly constructed guard. -/
def mkGuard (ttl : ℤ) : ArmedGuard := { ttl_seconds := ttl }

namespace ArmedGuard

/-- `arm(self)`: `self._armed_at = time.time()`; `now` is that sample. -/
def arm (g : ArmedGuard) (now : ℚ) : ArmedGuard := { g with armed_at := now }

/-- `disarm(self)`: `self._armed_at = 0.0`. -/
def disarm (g : ArmedGuard) : ArmedGuard := { g with armed_at := 0 }

/-- The `is_armed` property: returns the boolean and the (possibly
auto-disarmed) new state; `now` is the `time.time()` sample taken in the
body. -/
def is_armed (g : ArmedGuard) (now : ℚ) : Bool × ArmedGuard :=
  if g.armed_at = 0 then (false, g)
  else if (g.ttl_seconds : ℚ) < now - g.armed_at then (false, { g with armed_at := 0 })
  else (true, g)

/-- The `remaining_seconds` property: first evaluates `self.is_armed`
(clock sample `t1`), then samples the clock again (`t2`) to compute the
elapsed time, returning `max(0, int(self.ttl_seconds - elapsed))`. -/
def remaining_seconds (g : ArmedGuard) (t1 t2 : ℚ) : ℤ × ArmedGuard :=
  let p := is_armed g t1
  if p.1 then
    let elapsed := t2 - p.2.armed_at
    (max 0 (pyInt ((p.2.ttl_seconds : ℚ) - elapsed)), p.2)
  else (0, p.2)

/-- The `status_display` property: evaluates `self.is_armed` (sample `t1`)
and, when armed, `self.remaining_seconds` (samples `t2`, `t3`). -/
def status_display (g : ArmedGuard) (t1 t2 t3 : ℚ) : String × ArmedGuard :=
  let p := is_armed g t1
  if p.1 then
    let r := remaining_seconds p.2 t2 t3
    ("🔴 ARMED (" ++ toString r.1 ++ "s)", r.2)
  else ("🟢 READ-ONLY", p.2)

end ArmedGuard

/-- A value stored in one of the result dicts returned by the mutating
operations: a string, an int, or Python `None`. -/
inductive PyVal where
  | str : String → PyVal
  | int : ℤ → PyVal
  | none : PyVal
deriving DecidableEq, Repr

/-- A Python dict literal with string keys, in insertion order. -/
abbrev PyDict := List (String × PyVal)

/-- `d[k]` lookup on a result dict (first binding wins). -/
def pyLookup (d : PyDict) (k : String) : Option PyVal :=
  (d.find? (fun p => p.1 == k)).map (fun p => p.2)

/-- An optional integer identifier returned by the SDK (`None` when the
attribute is absent). -/
def optInt : Option ℤ → PyVal
  | some n => .int n
  | Option.none => .none

/-- An optional string identifier returned by the SDK. -/
def optStr : Option String → PyVal
  | some s => .str s
  | Option.none => .none

/-- The dict every mutating operation returns when `client.is_read_only`
holds: `status` is `"error"`, with the fixed human-readable reason. -/
def readOnlyError : PyDict :=
  [("status", .str "error"), ("error", .str "Read-only mode — arm to enable actions")]

/-- The dict returned when the underlying SDK call raises exception
message `e`. -/
def errResult (e : String) : PyDict :=
  [("status", .str "error"), ("error", .str e)]

/-- The `read_only` field of `LazyBricksConfig` (`models/config.py`), with
its declared default (`True  # Safe default`).  The auth fields are not
relevant to the gating behaviour and are omitted. -/
structure LazyBricksConfig where
  read_only : Bool := true
deriving DecidableEq, Repr

/-- A config constructed without touching `read_only`, as `load()` does. -/
def defaultConfig : LazyBricksConfig := {}

/-- `DatabricksClient.is_read_only` property: `return self._config.read_only`. -/
def DatabricksClient.is_read_only (config : LazyBricksConfig) : Bool := config.read_only

/-- `ClusterOps.start`: gated on `self._client.is_read_only`, then calls
`sdk.clusters.start`.  The returned flag records whether the SDK call was
invoked. -/
def ClusterOps.start (read_only : Bool) (sdk : Except String Unit) (cluster_id : String) :
    PyDict × Bool :=
  if read_only then (readOnlyError, false)
  else match sdk with
    | .ok _ => ([("status", .str "started"), ("cluster_id", .str cluster_id)], true)
    | .error e => (errResult e, true)

/-- `ClusterOps.terminate`: gated, then calls `sdk.clusters.delete`. -/
def ClusterOps.terminate (read_only : Bool) (sdk : Except String Unit) (cluster_id : String) :
    PyDict × Bool :=
  if read_only then (readOnlyError, false)
  else match sdk with
    | .ok _ => ([("status", .str "terminated"), ("cluster_id", .str cluster_id)], true)
    | .error e => (errResult e, true)

/-- `ClusterOps.restart`: gated, then calls `sdk.clusters.restart`. -/
def ClusterOps.restart (read_only : Bool) (sdk : Except String Unit) (cluster_id : String) :
    PyDict × Bool :=
  if read_only then (readOnlyError, false)
  else match sdk with
    | .ok _ => ([("status", .str "restarting"), ("cluster_id", .str cluster_id)], true)
    | .error e => (errResult e, true)

/-- `JobOps.cancel_run`: gated, then calls `sdk.jobs.cancel_run`. -/
def JobOps.cancel_run (read_only : Bool) (sdk : Except String Unit) (run_id : ℤ) :
    PyDict × Bool :=
  if read_only then (readOnlyError, false)
  else match sdk with
    | .ok _ => ([("status", .str "cancelled"), ("run_id", .int run_id)], true)
    | .error e => (errResult e, true)

/-- `JobOps.rerun`: gated, then calls `sdk.jobs.repair_run`; the success
payload carries the optional `repair_id`. -/
def JobOps.rerun (read_only : Bool) (sdk : Except String (Option ℤ)) (run_id : ℤ) :
    PyDict × Bool :=
  if read_only then (readOnlyError, false)
  else match sdk with
    | .ok repair_id =>
        ([("status", .str "rerun_submitted"), ("original_run_id", .int run_id),
          ("repair_id", optInt repair_id)], true)
    | .error e => (errResult e, true)

/-- `JobOps.run_now`: gated, then calls `sdk.jobs.run_now`; the success
payload carries the optional new `run_id`. -/
def JobOps.run_now (read_only : Bool) (sdk : Except String (Option ℤ)) (job_id : ℤ) :
    PyDict × Bool :=
  if read_only then (readOnlyError, false)
  else match sdk with
    | .ok run_id =>
        ([("status", .str "submitted"), ("job_id", .int job_id),
          ("run_id", optInt run_id)], true)
    | .error e => (errResult e, true)

/-- `PipelineOps.start_update`: gated, then calls `sdk.pipelines.start_update`;
the success payload carries the optional `update_id`. -/
def PipelineOps.start_update (read_only : Bool) (sdk : Except String (Option String))
    (pipeline_id : String) : PyDict × Bool :=
  if read_only then (readOnlyError, false)
  else match sdk with
    | .ok update_id =>
        ([("status", .str "started"), ("pipeline_id", .str pipeline_id),
          ("update_id", optStr update_id)], true)
    | .error e => (errResult e, true)

/-- `PipelineOps.stop`: gated, then calls `sdk.pipelines.stop`. -/
def PipelineOps.stop (read_only : Bool) (sdk : Except String Unit) (pipeline_id : String) :
    PyDict × Bool :=
  if read_only then (readOnlyError, false)
  else match sdk with
    | .ok _ => ([("status", .str "stopped"), ("pipeline_id", .str pipeline_id)], true)
    | .error e => (errResult e, true)

/-- `WarehouseOps.start`: gated, then calls `sdk.warehouses.start`. -/
def WarehouseOps.start (read_only : Bool) (sdk : Except String Unit) (warehouse_id : String) :
    PyDict × Bool :=
  if read_only then (readOnlyError, false)
  else match sdk with
    | .ok _ => ([("status", .str "starting"), ("warehouse_id", .str warehouse_id)], true)
    | .error e => (errResult e, true)

/-- `WarehouseOps.stop`: gated, then calls `sdk.warehouses.stop`. -/
def WarehouseOps.stop (read_only : Bool) (sdk : Except String Unit) (warehouse_id : String) :
    PyDict × Bool :=
  if read_only then (readOnlyError, false)
  else match sdk with
    | .ok _ => ([("status", .str "stopping"), ("warehouse_id", .str warehouse_id)], true)
    | .error e => (errResult e, true)

/-- `BaseScreen.require_armed`: `if self.guard.is_armed: return True` else
notify and return `False` — exactly one read of the guard (the notification
is UI-only). -/
def BaseScreen.require_armed (g : ArmedGuard) (t : ℚ) : Bool × ArmedGuard :=
  ArmedGuard.is_armed g t

/-- `ClustersScreen._do_start_cluster` worker: sets `config.read_only` to
`False`, runs `cluster_ops.start` against that flag, and in the `finally`
block sets the flag to `True`.  Input `ro0` is the flag's value when the
worker begins; the output is (result dict, final flag value, whether the
SDK call was invoked). -/
def ClustersScreen.do_start_cluster (ro0 : Bool) (sdk : Except String Unit)
    (cluster_id : String) : PyDict × Bool × Bool :=
  let ro1 : Bool := false
  let r := ClusterOps.start ro1 sdk cluster_id
  let ro2 : Bool := true
  (r.1, ro2, r.2)

/-- `ClustersScreen._do_terminate_cluster` worker: same flag toggling around
`cluster_ops.terminate`. -/
def ClustersScreen.do_terminate_cluster (ro0 : Bool) (sdk : Except String Unit)
    (cluster_id : String) : PyDict × Bool × Bool :=
  let ro1 : Bool := false
  let r := ClusterOps.terminate ro1 sdk cluster_id
  let ro2 : Bool := true
  (r.1, ro2, r.2)

/-- `ClustersScreen._do_restart_cluster` worker: same flag toggling around
`cluster_ops.restart`. -/
def ClustersScreen.do_restart_cluster (ro0 : Bool) (sdk : Except String Unit)
    (cluster_id : String) : PyDict × Bool × Bool :=
  let ro1 : Bool := false
  let r := ClusterOps.restart ro1 sdk cluster_id
  let ro2 : Bool := true
  (r.1, ro2, r.2)

/-- The armed-gated part of `ClustersScreen.action_terminate_cluster`:
`require_armed` (one guard read at clock sample `t`), and only when it
answers true is the terminate worker dispatched.  Returns the worker's
output (or `none` when blocked in the UI) and the guard state after the
flow. -/
def ClustersScreen.action_terminate_flow (g : ArmedGuard) (t : ℚ) (ro0 : Bool)
    (sdk : Except String Unit) (cluster_id : String) :
    Option (PyDict × Bool × Bool) × ArmedGuard :=
  let p := BaseScreen.require_armed g t
  if p.1 then (some (ClustersScreen.do_terminate_cluster ro0 sdk cluster_id), p.2)
  else (none, p.2)

/-! ## Helper lemmas about the guard -/

theorem pyInt_of_nonneg {q : ℚ} (h : 0 ≤ q) : pyInt q = ⌊q⌋ := by
  simp [pyInt, h]

theorem pyInt_mono {a b : ℚ} (h : a ≤ b) : pyInt a ≤ pyInt b := by
  unfold pyInt
  by_cases ha : 0 ≤ a
  · have hb : 0 ≤ b := le_trans ha h
    simp [ha, hb]
    exact Int.floor_le_floor h
  · by_cases hb : 0 ≤ b
    · simp [ha, hb]
      exact le_trans (Int.ceil_le.mpr (by exact_mod_cast le_of_not_le ha))
        (Int.floor_nonneg.mpr hb)
    · simp [ha, hb]
      exact Int.ceil_le_ceil h

theorem is_armed_of_sentinel {g : ArmedGuard} (h : g.armed_at = 0) (t : ℚ) :
    ArmedGuard.is_armed g t = (false, g) := by
  simp [ArmedGuard.is_armed, h]

theorem is_armed_of_expired {g : ArmedGuard} {t : ℚ} (h : g.armed_at ≠ 0)
    (hex : (g.ttl_seconds : ℚ) < t - g.armed_at) :
    ArmedGuard.is_armed g t = (false, { g with armed_at := 0 }) := by
  simp [ArmedGuard.is_armed, h, hex]

theorem is_armed_of_live {g : ArmedGuard} {t : ℚ} (h : g.armed_at ≠ 0)
    (hlive : ¬ (g.ttl_seconds : ℚ) < t - g.armed_at) :
    ArmedGuard.is_armed g t = (true, g) := by
  simp [ArmedGuard.is_armed, h, hlive]

theorem remaining_of_sentinel {g : ArmedGuard} (h : g.armed_at = 0) (t1 t2 : ℚ) :
    ArmedGuard.remaining_seconds g t1 t2 = (0, g) := by
  simp [ArmedGuard.remaining_seconds, is_armed_of_sentinel h]

theorem remaining_of_expired {g : ArmedGuard} {t1 : ℚ} (h : g.armed_at ≠ 0)
    (hex : (g.ttl_seconds : ℚ) < t1 - g.armed_at) (t2 : ℚ) :
    ArmedGuard.remaining_seconds g t1 t2 = (0, { g with armed_at := 0 }) := by
  simp [ArmedGuard.remaining_seconds, is_armed_of_expired h hex]

theorem remaining_of_live {g : ArmedGuard} {t1 : ℚ} (h : g.armed_at ≠ 0)
    (hlive : ¬ (g.ttl_seconds : ℚ) < t1 - g.armed_at) (t2 : ℚ) :
    ArmedGuard.remaining_seconds g t1 t2
      = (max 0 (pyInt ((g.ttl_seconds : ℚ) - (t2 - g.armed_at))), g) := by
  simp [ArmedGuard.remaining_seconds, is_armed_of_live h hlive]

theorem remaining_nonneg (g : ArmedGuard) (t1 t2 : ℚ) :
    0 ≤ (ArmedGuard.remaining_seconds g t1 t2).1 := by
  unfold ArmedGuard.remaining_seconds
  by_cases h : (ArmedGuard.is_armed g t1).1 <;> simp [h]

/-! ## Claim theorems -/

/-- C2: for every guard constructed with any `ttl_seconds`, before any
`arm()` call has occurred, `is_armed` returns false and `remaining_seconds`
returns 0 (at every clock reading). -/
theorem fresh_guard_reads_disarmed (ttl : ℤ) (t t1 t2 : ℚ) :
    (ArmedGuard.is_armed (mkGuard ttl) t).1 = false
    ∧ (ArmedGuard.remaining_seconds (mkGuard ttl) t1 t2).1 = 0 := by
  have h : (mkGuard ttl).armed_at = 0 := rfl
  rw [is_armed_of_sentinel h, remaining_of_sentinel h]
  exact ⟨rfl, rfl⟩

/-- C3 counterexample: with `ttl_seconds = 1`, arming at time 100 and
reading half a second later, `is_armed` is true but `remaining_seconds` is
0 (the float remainder 0.5 is truncated by `int()`), refuting
`0 < remaining_seconds` for arbitrarily small positive elapsed time. -/
theorem arm_positive_elapsed_zero_remaining :
    (ArmedGuard.is_armed ((mkGuard 1).arm 100) (mkRat 201 2)).1 = true
    ∧ ¬ 0 < (ArmedGuard.remaining_seconds ((mkGuard 1).arm 100) (mkRat 201 2) (mkRat 201 2)).1 := by
  with_unfolding_all decide

/-- C3 amended: for every `ttl_seconds > 0` and arm time `t > 0`, reading
with zero elapsed time gives `is_armed = true` and
`0 < remaining_seconds ≤ ttl_seconds`; for positive elapsed `e ≤ ttl`,
`is_armed` is still true and `0 ≤ remaining_seconds ≤ ttl_seconds`, with
positivity guaranteed only while `e ≤ ttl - 1` (integer truncation). -/
theorem arm_immediate_remaining_bounds (ttl : ℤ) (t e : ℚ)
    (httl : 0 < ttl) (ht : 0 < t) (he : 0 ≤ e) (hett : e ≤ (ttl : ℚ)) :
    (ArmedGuard.is_armed ((mkGuard ttl).arm t) (t + e)).1 = true
    ∧ 0 < (ArmedGuard.remaining_seconds ((mkGuard ttl).arm t) t t).1
    ∧ (ArmedGuard.remaining_seconds ((mkGuard ttl).arm t) t t).1 ≤ ttl
    ∧ 0 ≤ (ArmedGuard.remaining_seconds ((mkGuard ttl).arm t) (t + e) (t + e)).1
    ∧ (ArmedGuard.remaining_seconds ((mkGuard ttl).arm t) (t + e) (t + e)).1 ≤ ttl
    ∧ (e ≤ (ttl : ℚ) - 1 →
        0 < (ArmedGuard.remaining_seconds ((mkGuard ttl).arm t) (t + e) (t + e)).1) := by
  set g := (mkGuard ttl).arm t with hg
  have harm : g.armed_at = t := rfl
  have httlg : g.ttl_seconds = ttl := rfl
  have hne : g.armed_at ≠ 0 := by rw [harm]; exact ne_of_gt ht
  have httl0 : (0 : ℚ) ≤ (ttl : ℚ) := by exact_mod_cast le_of_lt httl
  have hlive0 : ¬ (g.ttl_seconds : ℚ) < t - g.armed_at := by
    rw [harm, httlg]; push_neg; linarith
  have hlivee : ¬ (g.ttl_seconds : ℚ) < (t + e) - g.armed_at := by
    rw [harm, httlg]; push_neg; linarith
  refine ⟨?_, ?_, ?_, ?_, ?_, ?_⟩
  · rw [is_armed_of_live hne hlivee]
  · rw [remaining_of_live hne hlive0]
    rw [harm, httlg]
    have : (ttl : ℚ) - (t - t) = (ttl : ℚ) := by ring
    rw [this, pyInt_of_nonneg httl0, Int.floor_intCast]
    simp [httl]
  · rw [remaining_of_live hne hlive0]
    rw [harm, httlg]
    have : (ttl : ℚ) - (t - t) = (ttl : ℚ) := by ring
    rw [this, pyInt_of_nonneg httl0, Int.floor_intCast]
    simp [le_of_lt httl]
  · rw [remaining_of_live hne hlivee]
    simp
  · rw [remaining_of_live hne hlivee]
    rw [harm, httlg]
    have h1 : (ttl : ℚ) - ((t + e) - t) = (ttl : ℚ) - e := by ring
    rw [h1, pyInt_of_nonneg (by linarith)]
    have h2 : ⌊(ttl : ℚ) - e⌋ ≤ ttl := by
      calc ⌊(ttl : ℚ) - e⌋ ≤ ⌊(ttl : ℚ)⌋ := Int.floor_le_floor (by linarith)
        _ = ttl := Int.floor_intCast ttl
    simp [h2, le_of_lt httl]
  · intro hsmall
    rw [remaining_of_live hne hlivee]
    rw [harm, httlg]
    have h1 : (ttl : ℚ) - ((t + e) - t) = (ttl : ℚ) - e := by ring
    rw [h1, pyInt_of_nonneg (by linarith)]
    have h2 : (1 : ℤ) ≤ ⌊(ttl : ℚ) - e⌋ := by
      rw [Int.le_floor]; push_cast; linarith
    have : (0 : ℤ) < ⌊(ttl : ℚ) - e⌋ := lt_of_lt_of_le zero_lt_one h2
    exact lt_max_of_lt_right this

/-- C3 witness: the amended theorem at `ttl = 30, t = 100, e = 5`. -/
theorem arm_immediate_remaining_bounds_witness :
    (0 : ℤ) < 30 ∧ (0 : ℚ) < 100 ∧ (0 : ℚ) ≤ 5 ∧ (5 : ℚ) ≤ ((30 : ℤ) : ℚ)
    ∧ ((ArmedGuard.is_armed ((mkGuard 30).arm 100) (100 + 5)).1 = true
      ∧ 0 < (ArmedGuard.remaining_seconds ((mkGuard 30).arm 100) 100 100).1
      ∧ (ArmedGuard.remaining_seconds ((mkGuard 30).arm 100) 100 100).1 ≤ 30
      ∧ 0 ≤ (ArmedGuard.remaining_seconds ((mkGuard 30).arm 100) (100 + 5) (100 + 5)).1
      ∧ (ArmedGuard.remaining_seconds ((mkGuard 30).arm 100) (100 + 5) (100 + 5)).1 ≤ 30
      ∧ ((5 : ℚ) ≤ ((30 : ℤ) : ℚ) - 1 →
          0 < (ArmedGuard.remaining_seconds ((mkGuard 30).arm 100) (100 + 5) (100 + 5)).1)) :=
  ⟨by decide, by decide, by decide, by decide,
    arm_immediate_remaining_bounds 30 100 5 (by decide) (by decide) (by decide) (by decide)⟩

/-- C4: reading `is_armed` after the TTL has elapsed returns false and, in
the same operation, resets `armed_at` to the disarmed sentinel; every
subsequent read (at any clock value, with no intervening `arm()`) reports
disarmed, leaves the state fixed, and gives `remaining_seconds = 0`. -/
theorem is_armed_expiry_clears_state (g : ArmedGuard) (t : ℚ)
    (h : g.armed_at ≠ 0) (hex : (g.ttl_seconds : ℚ) < t - g.armed_at) :
    (ArmedGuard.is_armed g t).1 = false
    ∧ (ArmedGuard.is_armed g t).2.armed_at = 0
    ∧ (∀ u : ℚ, ArmedGuard.is_armed (ArmedGuard.is_armed g t).2 u
        = (false, (ArmedGuard.is_armed g t).2))
    ∧ (∀ u1 u2 : ℚ, (ArmedGuard.remaining_seconds (ArmedGuard.is_armed g t).2 u1 u2).1 = 0) := by
  rw [is_armed_of_expired h hex]
  refine ⟨rfl, rfl, fun u => is_armed_of_sentinel rfl u, fun u1 u2 => ?_⟩
  rw [remaining_of_sentinel rfl]

/-- C4 witness: guard armed at 100 with TTL 1, read at 102. -/
theorem is_armed_expiry_clears_state_witness :
    ({ ttl_seconds := 1, armed_at := 100 } : ArmedGuard).armed_at ≠ 0
    ∧ ((({ ttl_seconds := 1, armed_at := 100 } : ArmedGuard).ttl_seconds : ℚ)
        < 102 - ({ ttl_seconds := 1, armed_at := 100 } : ArmedGuard).armed_at)
    ∧ ((ArmedGuard.is_armed { ttl_seconds := 1, armed_at := 100 } 102).1 = false
      ∧ (ArmedGuard.is_armed { ttl_seconds := 1, armed_at := 100 } 102).2.armed_at = 0
      ∧ (∀ u : ℚ, ArmedGuard.is_armed (ArmedGuard.is_armed { ttl_seconds := 1, armed_at := 100 } 102).2 u
          = (false, (ArmedGuard.is_armed { ttl_seconds := 1, armed_at := 100 } 102).2))
      ∧ (∀ u1 u2 : ℚ,
          (ArmedGuard.remaining_seconds (ArmedGuard.is_armed { ttl_seconds := 1, armed_at := 100 } 102).2 u1 u2).1 = 0)) :=
  ⟨by decide, by with_unfolding_all decide,
    is_armed_expiry_clears_state { ttl_seconds := 1, armed_at := 100 } 102
      (by decide) (by with_unfolding_all decide)⟩

/-- C5: `arm()` has no preconditions and re-arming resets the countdown to
the full TTL.  After `arm` at `t1 > 0` and a second `arm` after waiting
`w < ttl_seconds`, any read completed within one second of the re-arm shows
`remaining_seconds` within 1 of `ttl_seconds` (not `ttl_seconds - w`). -/
theorem rearm_resets_to_full_ttl (g : ArmedGuard) (t1 w t3 t4 : ℚ)
    (ht1 : 0 < t1) (hw : 0 ≤ w) (hwttl : w < (g.ttl_seconds : ℚ))
    (httl : 1 ≤ g.ttl_seconds) (h3 : t1 + w ≤ t3) (h34 : t3 ≤ t4) (h4 : t4 < t1 + w + 1) :
    g.ttl_seconds - 1
      ≤ (ArmedGuard.remaining_seconds ((g.arm t1).arm (t1 + w)) t3 t4).1
    ∧ (ArmedGuard.remaining_seconds ((g.arm t1).arm (t1 + w)) t3 t4).1 ≤ g.ttl_seconds := by
  set g2 := (g.arm t1).arm (t1 + w) with hg2
  have harm : g2.armed_at = t1 + w := rfl
  have httlg : g2.ttl_seconds = g.ttl_seconds := rfl
  have httl1 : (1 : ℚ) ≤ (g.ttl_seconds : ℚ) := by exact_mod_cast httl
  have hne : g2.armed_at ≠ 0 := by rw [harm]; positivity
  have hlive : ¬ (g2.ttl_seconds : ℚ) < t3 - g2.armed_at := by
    rw [harm, httlg]; push_neg; linarith
  rw [remaining_of_live hne hlive, harm, httlg]
  set x : ℚ := (g.ttl_seconds : ℚ) - (t4 - (t1 + w)) with hx
  have hx0 : 0 ≤ x := by rw [hx]; linarith
  have hxle : x ≤ (g.ttl_seconds : ℚ) := by rw [hx]; linarith
  have hxgt : (g.ttl_seconds : ℚ) - 1 < x := by rw [hx]; linarith
  rw [pyInt_of_nonneg hx0]
  have hlow : g.ttl_seconds - 1 ≤ ⌊x⌋ := by
    rw [Int.le_floor]; push_cast; linarith
  have hhigh : ⌊x⌋ ≤ g.ttl_seconds := by
    calc ⌊x⌋ ≤ ⌊(g.ttl_seconds : ℚ)⌋ := Int.floor_le_floor hxle
      _ = g.ttl_seconds := Int.floor_intCast g.ttl_seconds
  constructor
  · exact le_trans hlow (le_max_right 0 ⌊x⌋)
  · exact max_le (le_trans (by linarith) httl) hhigh

/-- C5 witness: default guard (`ttl = 30`), arm at 100, re-arm at 110
after a 10-second wait, read at 110. -/
theorem rearm_resets_to_full_ttl_witness :
    (0 : ℚ) < 100 ∧ (0 : ℚ) ≤ 10 ∧ (10 : ℚ) < ((mkGuard 30).ttl_seconds : ℚ)
    ∧ 1 ≤ (mkGuard 30).ttl_seconds ∧ (100 : ℚ) + 10 ≤ 110 ∧ (110 : ℚ) ≤ 110
    ∧ (110 : ℚ) < 100 + 10 + 1
    ∧ ((mkGuard 30).ttl_seconds - 1
        ≤ (ArmedGuard.remaining_seconds (((mkGuard 30).arm 100).arm (100 + 10)) 110 110).1
      ∧ (ArmedGuard.remaining_seconds (((mkGuard 30).arm 100).arm (100 + 10)) 110 110).1
        ≤ (mkGuard 30).ttl_seconds) :=
  ⟨by decide, by decide, by with_unfolding_all decide, by decide,
    by with_unfolding_all decide, by decide, by with_unfolding_all decide,
    rearm_resets_to_full_ttl (mkGuard 30) 100 10 110 110 (by decide) (by decide)
      (by with_unfolding_all decide) (by decide) (by with_unfolding_all decide)
      (by decide) (by with_unfolding_all decide)⟩

/-- C6: two reads of `remaining_seconds` at non-decreasing clock samples,
with no intervening `arm()` (the second read acts on the state left by the
first), satisfy `second ≤ first` — including across the expiry boundary. -/
theorem remaining_seconds_monotone (g : ArmedGuard) (t1a t1b t2a t2b : ℚ)
    (h1 : t1a ≤ t1b) (h2 : t1b ≤ t2a) (h3 : t2a ≤ t2b) :
    (ArmedGuard.remaining_seconds (ArmedGuard.remaining_seconds g t1a t1b).2 t2a t2b).1
      ≤ (ArmedGuard.remaining_seconds g t1a t1b).1 := by
  by_cases hs : g.armed_at = 0
  · rw [remaining_of_sentinel hs, remaining_of_sentinel hs]
  · by_cases hex1 : (g.ttl_seconds : ℚ) < t1a - g.armed_at
    · rw [remaining_of_expired hs hex1, remaining_of_sentinel rfl]
    · rw [remaining_of_live hs hex1]
      by_cases hex2 : (g.ttl_seconds : ℚ) < t2a - g.armed_at
      · rw [remaining_of_expired hs hex2]
        exact le_max_left 0 _
      · rw [remaining_of_live hs hex2]
        exact max_le_max (le_refl 0) (pyInt_mono (by linarith))

/-- C6 witness: armed guard read at samples 100 ≤ 101 ≤ 102 ≤ 103. -/
theorem remaining_seconds_monotone_witness :
    (100 : ℚ) ≤ 101 ∧ (101 : ℚ) ≤ 102 ∧ (102 : ℚ) ≤ 103
    ∧ (ArmedGuard.remaining_seconds
        (ArmedGuard.remaining_seconds { ttl_seconds := 30, armed_at := 100 } 100 101).2 102 103).1
      ≤ (ArmedGuard.remaining_seconds ({ ttl_seconds := 30, armed_at := 100 } : ArmedGuard) 100 101).1 :=
  ⟨by decide, by decide, by decide,
    remaining_seconds_monotone { ttl_seconds := 30, armed_at := 100 } 100 101 102 103
      (by decide) (by decide) (by decide)⟩

theorem is_armed_true_eq {g : ArmedGuard} {t : ℚ} (h : (ArmedGuard.is_armed g t).1 = true) :
    ArmedGuard.is_armed g t = (true, g) := by
  by_cases hs : g.armed_at = 0
  · rw [is_armed_of_sentinel hs] at h; simp at h
  · by_cases hex : (g.ttl_seconds : ℚ) < t - g.armed_at
    · rw [is_armed_of_expired hs hex] at h; simp at h
    · exact is_armed_of_live hs hex

theorem status_display_of_armed {g : ArmedGuard} {t1 : ℚ} (t2 t3 : ℚ)
    (h : (ArmedGuard.is_armed g t1).1 = true) :
    ArmedGuard.status_display g t1 t2 t3
      = ("🔴 ARMED ("
          ++ toString (ArmedGuard.remaining_seconds (ArmedGuard.is_armed g t1).2 t2 t3).1
          ++ "s)",
        (ArmedGuard.remaining_seconds (ArmedGuard.is_armed g t1).2 t2 t3).2) := by
  simp [ArmedGuard.status_display, h]

theorem status_display_of_disarmed {g : ArmedGuard} {t1 : ℚ} (t2 t3 : ℚ)
    (h : (ArmedGuard.is_armed g t1).1 = false) :
    ArmedGuard.status_display g t1 t2 t3 = ("🟢 READ-ONLY", (ArmedGuard.is_armed g t1).2) := by
  simp [ArmedGuard.status_display, h]

/-- C1 counterexample: on a read-only client the terminate operation
returns status `"error"`, not status `"blocked"`; moreover the dict is
byte-for-byte the one an armed call returns when the SDK raises an
exception whose message happens to equal the read-only reason, so the
blocked result is not distinguishable from a failed call by shape. -/
theorem terminate_readonly_result_not_blocked :
    pyLookup (ClusterOps.terminate true (Except.ok ()) "c-123").1 "status"
        ≠ some (PyVal.str "blocked")
    ∧ pyLookup (ClusterOps.terminate true (Except.ok ()) "c-123").1 "status"
        = some (PyVal.str "error")
    ∧ (ClusterOps.terminate true (Except.ok ()) "c-123").1
        = (ClusterOps.terminate false
            (Except.error "Read-only mode — arm to enable actions") "c-123").1 := by
  refine ⟨?_, rfl, rfl⟩
  decide

/-- C1 amended: whenever the read-only flag is set, every one of the ten
mutating operations skips the SDK call and returns the structured dict
with status `"error"` and the fixed human-readable reason; this is
distinguishable from every successful result (whose status is an
operation-specific verb, never `"error"`), but it shares the `"error"`
status with failed-call results and is distinguishable from them only by
the error message. -/
theorem readonly_blocks_without_sdk_call (sdkc : Except String Unit)
    (sdkj : Except String (Option ℤ)) (sdkp : Except String (Option String))
    (cid pid wid : String) (rid jid : ℤ) :
    ClusterOps.start true sdkc cid = (readOnlyError, false)
    ∧ ClusterOps.terminate true sdkc cid = (readOnlyError, false)
    ∧ ClusterOps.restart true sdkc cid = (readOnlyError, false)
    ∧ JobOps.run_now true sdkj jid = (readOnlyError, false)
    ∧ JobOps.cancel_run true sdkc rid = (readOnlyError, false)
    ∧ JobOps.rerun true sdkj rid = (readOnlyError, false)
    ∧ PipelineOps.start_update true sdkp pid = (readOnlyError, false)
    ∧ PipelineOps.stop true sdkc pid = (readOnlyError, false)
    ∧ WarehouseOps.start true sdkc wid = (readOnlyError, false)
    ∧ WarehouseOps.stop true sdkc wid = (readOnlyError, false)
    ∧ pyLookup readOnlyError "status" = some (PyVal.str "error")
    ∧ pyLookup readOnlyError "error"
        = some (PyVal.str "Read-only mode — arm to enable actions")
    ∧ pyLookup (ClusterOps.start false (Except.ok ()) cid).1 "status"
        = some (PyVal.str "started")
    ∧ pyLookup (ClusterOps.terminate false (Except.ok ()) cid).1 "status"
        = some (PyVal.str "terminated")
    ∧ pyLookup (ClusterOps.restart false (Except.ok ()) cid).1 "status"
        = some (PyVal.str "restarting")
    ∧ pyLookup (JobOps.run_now false (Except.ok (some 5)) jid).1 "status"
        = some (PyVal.str "submitted")
    ∧ pyLookup (JobOps.cancel_run false (Except.ok ()) rid).1 "status"
        = some (PyVal.str "cancelled")
    ∧ pyLookup (JobOps.rerun false (Except.ok (some 5)) rid).1 "status"
        = some (PyVal.str "rerun_submitted")
    ∧ pyLookup (PipelineOps.start_update false (Except.ok (some "u-1")) pid).1 "status"
        = some (PyVal.str "started")
    ∧ pyLookup (PipelineOps.stop false (Except.ok ()) pid).1 "status"
        = some (PyVal.str "stopped")
    ∧ pyLookup (WarehouseOps.start false (Except.ok ()) wid).1 "status"
        = some (PyVal.str "starting")
    ∧ pyLookup (WarehouseOps.stop false (Except.ok ()) wid).1 "status"
        = some (PyVal.str "stopping") :=
  ⟨rfl, rfl, rfl, rfl, rfl, rfl, rfl, rfl, rfl, rfl, rfl, rfl, rfl, rfl, rfl, rfl,
    rfl, rfl, rfl, rfl, rfl, rfl⟩

/-- C7: when not read-only and the SDK call raises with message `m`, every
mutating operation returns the dict with status `"error"` and error `m`
(the exception is converted, not propagated) and the SDK call was indeed
invoked; in the full armed terminate flow the guard state after the failed
call is exactly the guard state before it, so `is_armed` still reflects
only TTL-based state. -/
theorem upstream_failure_error_result (m cid pid wid : String) (rid jid : ℤ)
    (g : ArmedGuard) (t : ℚ) (ro0 : Bool)
    (harmed : (ArmedGuard.is_armed g t).1 = true) :
    ClusterOps.start false (Except.error m) cid = (errResult m, true)
    ∧ ClusterOps.terminate false (Except.error m) cid = (errResult m, true)
    ∧ ClusterOps.restart false (Except.error m) cid = (errResult m, true)
    ∧ JobOps.run_now false (Except.error m) jid = (errResult m, true)
    ∧ JobOps.cancel_run false (Except.error m) rid = (errResult m, true)
    ∧ JobOps.rerun false (Except.error m) rid = (errResult m, true)
    ∧ PipelineOps.start_update false (Except.error m) pid = (errResult m, true)
    ∧ PipelineOps.stop false (Except.error m) pid = (errResult m, true)
    ∧ WarehouseOps.start false (Except.error m) wid = (errResult m, true)
    ∧ WarehouseOps.stop false (Except.error m) wid = (errResult m, true)
    ∧ ClustersScreen.action_terminate_flow g t ro0 (Except.error m) cid
        = (some (errResult m, true, true), g) := by
  refine ⟨rfl, rfl, rfl, rfl, rfl, rfl, rfl, rfl, rfl, rfl, ?_⟩
  unfold ClustersScreen.action_terminate_flow BaseScreen.require_armed
  rw [is_armed_true_eq harmed]
  rfl

/-- C7 witness: guard armed at 100 with the default TTL, flow run at 100
with SDK failure "network unreachable". -/
theorem upstream_failure_error_result_witness :
    (ArmedGuard.is_armed { ttl_seconds := 30, armed_at := 100 } 100).1 = true
    ∧ (ClusterOps.start false (Except.error "network unreachable") "c-1"
        = (errResult "network unreachable", true)
      ∧ ClusterOps.terminate false (Except.error "network unreachable") "c-1"
        = (errResult "network unreachable", true)
      ∧ ClusterOps.restart false (Except.error "network unreachable") "c-1"
        = (errResult "network unreachable", true)
      ∧ JobOps.run_now false (Except.error "network unreachable") 9
        = (errResult "network unreachable", true)
      ∧ JobOps.cancel_run false (Except.error "network unreachable") 7
        = (errResult "network unreachable", true)
      ∧ JobOps.rerun false (Except.error "network unreachable") 7
        = (errResult "network unreachable", true)
      ∧ PipelineOps.start_update false (Except.error "network unreachable") "p-1"
        = (errResult "network unreachable", true)
      ∧ PipelineOps.stop false (Except.error "network unreachable") "p-1"
        = (errResult "network unreachable", true)
      ∧ WarehouseOps.start false (Except.error "network unreachable") "w-1"
        = (errResult "network unreachable", true)
      ∧ WarehouseOps.stop false (Except.error "network unreachable") "w-1"
        = (errResult "network unreachable", true)
      ∧ ClustersScreen.action_terminate_flow { ttl_seconds := 30, armed_at := 100 } 100 true
          (Except.error "network unreachable") "c-1"
        = (some (errResult "network unreachable", true, true),
            { ttl_seconds := 30, armed_at := 100 })) :=
  ⟨by with_unfolding_all decide,
    upstream_failure_error_result "network unreachable" "c-1" "p-1" "w-1" 7 9
      { ttl_seconds := 30, armed_at := 100 } 100 true (by with_unfolding_all decide)⟩

/-- C8: the guard's public operations are total functions of the state and
the clock samples: `remaining_seconds` always yields a non-negative
integer, `is_armed` always yields a boolean, `status_display` always
yields one of its two display forms, and `arm`/`disarm` always yield a
well-formed state (TTL preserved; `disarm` plants the sentinel). -/
theorem guard_operations_total (g : ArmedGuard) (t1 t2 t3 : ℚ) :
    0 ≤ (ArmedGuard.remaining_seconds g t1 t2).1
    ∧ ((ArmedGuard.is_armed g t1).1 = true ∨ (ArmedGuard.is_armed g t1).1 = false)
    ∧ ((ArmedGuard.status_display g t1 t2 t3).1 = "🟢 READ-ONLY"
      ∨ ∃ n : ℤ, 0 ≤ n ∧ (ArmedGuard.status_display g t1 t2 t3).1
          = "🔴 ARMED (" ++ toString n ++ "s)")
    ∧ (ArmedGuard.arm g t1).ttl_seconds = g.ttl_seconds
    ∧ (ArmedGuard.disarm g).ttl_seconds = g.ttl_seconds
    ∧ (ArmedGuard.disarm g).armed_at = 0 := by
  refine ⟨remaining_nonneg g t1 t2, ?_, ?_, rfl, rfl, rfl⟩
  · cases h : (ArmedGuard.is_armed g t1).1
    · right; rfl
    · left; rfl
  · cases h : (ArmedGuard.is_armed g t1).1
    · left; rw [status_display_of_disarmed t2 t3 h]
    · right
      exact ⟨(ArmedGuard.remaining_seconds (ArmedGuard.is_armed g t1).2 t2 t3).1,
        remaining_nonneg _ t2 t3, by rw [status_display_of_armed t2 t3 h]⟩

/-- C9 counterexample: the start-cluster worker run from a prior read-only
flag of `False` (writable) ends with the flag `True` — the flag did not
return to the value it had before the action began. -/
theorem worker_flag_not_restored_from_false :
    (ClustersScreen.do_start_cluster false (Except.ok ()) "c-1").2.1 = true
    ∧ (ClustersScreen.do_start_cluster false (Except.ok ()) "c-1").2.1 ≠ false := by
  exact ⟨rfl, by decide⟩

/-- C9 amended: after the gated call completes — success or failure — each
cluster worker leaves the read-only flag unconditionally `True`; this
equals the prior value exactly when the action began with the flag `True`,
which is the flag's declared default (and the only value the program
itself sets outside a worker). -/
theorem workers_always_end_read_only (ro0 : Bool) (sdk : Except String Unit) (cid : String) :
    (ClustersScreen.do_start_cluster ro0 sdk cid).2.1 = true
    ∧ (ClustersScreen.do_terminate_cluster ro0 sdk cid).2.1 = true
    ∧ (ClustersScreen.do_restart_cluster ro0 sdk cid).2.1 = true
    ∧ (ClustersScreen.do_start_cluster true sdk cid).2.1 = true
    ∧ (ClustersScreen.do_terminate_cluster true sdk cid).2.1 = true
    ∧ (ClustersScreen.do_restart_cluster true sdk cid).2.1 = true
    ∧ defaultConfig.read_only = true :=
  ⟨rfl, rfl, rfl, rfl, rfl, rfl, rfl⟩

/-- C10: the gate consulted by every mutating ops method is
`client.config.read_only` (default `True`), not the `ArmedGuard`: with the
flag `False` every operation proceeds to the SDK call — in particular even
while a freshly constructed guard is disarmed — and the guard is consulted
only by the UI layer's `require_armed`, which is exactly one `is_armed`
read. -/
theorem mutating_gate_is_config_read_only (g : ArmedGuard) (t : ℚ) (c : LazyBricksConfig)
    (sdkc : Except String Unit) (sdkj : Except String (Option ℤ))
    (sdkp : Except String (Option String)) (cid pid wid : String) (rid jid : ℤ) :
    DatabricksClient.is_read_only c = c.read_only
    ∧ defaultConfig.read_only = true
    ∧ (ArmedGuard.is_armed (mkGuard 30) t).1 = false
    ∧ (ClusterOps.start false sdkc cid).2 = true
    ∧ (ClusterOps.terminate false sdkc cid).2 = true
    ∧ (ClusterOps.restart false sdkc cid).2 = true
    ∧ (JobOps.run_now false sdkj jid).2 = true
    ∧ (JobOps.cancel_run false sdkc rid).2 = true
    ∧ (JobOps.rerun false sdkj rid).2 = true
    ∧ (PipelineOps.start_update false sdkp pid).2 = true
    ∧ (PipelineOps.stop false sdkc pid).2 = true
    ∧ (WarehouseOps.start false sdkc wid).2 = true
    ∧ (WarehouseOps.stop false sdkc wid).2 = true
    ∧ BaseScreen.require_armed g t = ArmedGuard.is_armed g t := by
  refine ⟨rfl, rfl, ?_, ?_, ?_, ?_, ?_, ?_, ?_, ?_, ?_, ?_, ?_, rfl⟩
  · rw [is_armed_of_sentinel rfl]
  · cases sdkc <;> rfl
  · cases sdkc <;> rfl
  · cases sdkc <;> rfl
  · cases sdkj <;> rfl
  · cases sdkc <;> rfl
  · cases sdkj <;> rfl
  · cases sdkp <;> rfl
  · cases sdkc <;> rfl
  · cases sdkc <;> rfl
  · cases sdkc <;> rfl

end LazyDatabricks
